import Mathlib

/-!
Verification of the CodeFlow Sentinel anomaly-detection sidecar
(src/codeflow-sentinel/sentinel.py) against its natural-language
specification.

Shallow embedding conventions:
* Python floats are modelled as rationals (the decision logic only
  compares, negates, scales and clamps scores; no float-specific
  behaviour is relied on by any claim).
* The fallible external collaborators (sklearn's IsolationForest and the
  HTTP call to the explanation model) are modelled as oracles passed in
  as arguments: a training oracle of type `List (List ℚ) → Except Unit Forest`
  (`Except.error` models `fit` raising an exception) and a
  `PrimaryOutcome` describing how the primary explanation call ended.
* Global mutable module state (`telemetry_history`, `anomaly_detector`,
  `features_window`) becomes an explicit `SentinelState` threaded through
  the request handler.
* `analyze_flow` additionally reports two ghost observations that do not
  influence behaviour: whether the detection branch was entered
  (`scored`) and whether the training oracle was consulted (`rebuilt`),
  plus the possibly-mutated telemetry object (`telemetryOut`).
* The handler returns `Option AnalysisResponse`: `none` models the path
  on which the Python function falls off the end and returns `None`
  (which FastAPI cannot serialize as an `AnalysisResponse`).
-/

/-- Embeds the pydantic model `TelemetryData` (sentinel.py lines 46-52).
Timestamps are abstract instants modelled as naturals. -/
structure TelemetryData where
  latency : ℚ
  input_length : Int
  errors : Int
  route : String
  user_id : Option String := none
  timestamp : Option Nat := none
deriving DecidableEq, Repr

/-- Embeds the pydantic model `AnalysisResponse` (sentinel.py lines 54-59). -/
structure AnalysisResponse where
  status : String
  action : Option String := none
  reason : Option String := none
  prediction_score : Option ℚ := none
  confidence : Option ℚ := none
deriving DecidableEq, Repr

/-- The plain `AnalysisResponse(status="OK")` value returned on every
non-anomalous path (sentinel.py line 254). -/
def okResponse : AnalysisResponse := { status := "OK" }

/-- A fitted sklearn estimator, abstracted to its two observable callables.
Each call may raise (`Except.error`), which `analyze_flow` catches. -/
structure FittedModel where
  decisionFunction : List ℚ → Except Unit ℚ
  predict : List ℚ → Except Unit Int

/-- The `IsolationForest` object held by the global `anomaly_detector`:
either a freshly constructed, never fitted estimator (whose scoring
methods raise `NotFittedError`), or a fitted one. -/
inductive Forest where
  | unfitted : Forest
  | fitted (m : FittedModel) : Forest

/-- `forest.decision_function([x])[0]`: raises on an unfitted estimator,
otherwise defers to the fitted model (which may itself raise). -/
def Forest.decision : Forest → List ℚ → Except Unit ℚ
  | Forest.unfitted, _ => Except.error ()
  | Forest.fitted m, x => m.decisionFunction x

/-- `forest.predict([x])[0]`: raises on an unfitted estimator, otherwise
defers to the fitted model. -/
def Forest.predictOn : Forest → List ℚ → Except Unit Int
  | Forest.unfitted, _ => Except.error ()
  | Forest.fitted m, x => m.predict x

/-- One entry of the audit deque `telemetry_history`
(sentinel.py lines 212-216): the feature vector, the (possibly
timestamp-completed) telemetry dict, and the entry timestamp. -/
structure HistoryEntry where
  features : List ℚ
  telemetry : TelemetryData
  timestamp : Nat
deriving DecidableEq, Repr

/-- The module-level mutable state of sentinel.py (lines 41-43):
the bounded audit deque, the optional detector, and the plain Python
list used as the training window. -/
structure SentinelState where
  telemetry_history : List HistoryEntry
  anomaly_detector : Option Forest
  features_window : List (List ℚ)

/-- The state at process start: empty deque, no detector, empty window. -/
def initialState : SentinelState :=
  { telemetry_history := [], anomaly_detector := none, features_window := [] }

/-- `collections.deque(maxlen := m).append`: appends on the right and, if
the deque already holds `m` entries, evicts the oldest (leftmost) one. -/
def dequeAppend (maxlen : Nat) (q : List α) (x : α) : List α :=
  (q ++ [x]).drop (q.length + 1 - maxlen)

/-- Embeds `extract_features` (sentinel.py lines 158-166): the ordered
triple (latency, input_length, errors) as floats. -/
def extract_features (telemetry : TelemetryData) : List ℚ :=
  [telemetry.latency, (telemetry.input_length : ℚ), (telemetry.errors : ℚ)]

/-- How the `httpx` call of `explain_async` ended: an exception or timeout
anywhere in the try block (`exc`), or a completed HTTP response carrying
its status code and the extracted `choices[0].message.content` string. -/
inductive PrimaryOutcome where
  | exc : PrimaryOutcome
  | completed (statusCode : Nat) (content : String) : PrimaryOutcome

/-- Embeds the fallback rule chain of `explain_async`
(sentinel.py lines 126-135): fixed priority, first match wins. -/
def fallbackReason (features : List ℚ) : String :=
  let latency := features.getD 0 0
  let input_len := features.getD 1 0
  let errors := features.getD 2 0
  if latency > 5000 then
    "Unusually high latency detected, possible resource exhaustion or DoS attempt"
  else if errors > 5 then
    "High error rate suggests potential attack or system degradation"
  else if input_len > 10000 then
    "Excessive input size may indicate buffer overflow attempt"
  else
    "Unusual combination of telemetry metrics detected"

/-- Python's `str.strip()` with no arguments: removes leading and
trailing whitespace. -/
def pythonStrip (s : String) : String :=
  String.mk (((s.data.dropWhile Char.isWhitespace).reverse.dropWhile
    Char.isWhitespace).reverse)

/-- Embeds `explain_async` (sentinel.py lines 70-135). Returns the
explanation string together with a ghost flag recording whether the
primary (LLM) text was used. A completed 200 response with non-empty
stripped content returns that content; any other completion, and any
exception, falls through to the fallback chain. -/
def explain_async (outcome : PrimaryOutcome) (features : List ℚ) : String × Bool :=
  match outcome with
  | PrimaryOutcome.exc => (fallbackReason features, false)
  | PrimaryOutcome.completed statusCode content =>
    if statusCode = 200 then
      let explanation := pythonStrip content
      if explanation ≠ "" then (explanation, true)
      else (fallbackReason features, false)
    else (fallbackReason features, false)

/-- Embeds `update_anomaly_detector` (sentinel.py lines 137-156) with the
sklearn `fit` call abstracted as the oracle `fit`. Returns the new state
and whether a (re)build was performed. Mirrors the source exactly: below
10 window samples nothing happens; otherwise a brand-new estimator is
assigned to the global *before* `fit` runs, so a raising `fit` leaves the
global holding the new, unfitted estimator. -/
def update_anomaly_detector (fit : List (List ℚ) → Except Unit Forest)
    (st : SentinelState) : SentinelState × Bool :=
  if st.features_window.length < 10 then (st, false)
  else
    match fit st.features_window with
    | Except.ok f => ({ st with anomaly_detector := some f }, true)
    | Except.error _ => ({ st with anomaly_detector := some Forest.unfitted }, true)

/-- The full observable outcome of one `analyze_flow` call: the HTTP-level
response (`none` when the Python function returns `None`), the new module
state, the telemetry object after the handler ran (it is mutated in
place at sentinel.py line 210), and the two ghost flags. -/
structure FlowOutcome where
  response : Option AnalysisResponse
  state : SentinelState
  telemetryOut : TelemetryData
  scored : Bool
  rebuilt : Bool

/-- Sentinel.py lines 209-210: a telemetry object without a timestamp has
its timestamp field set in place to `datetime.utcnow()`. -/
def telemetryAfter (telemetry : TelemetryData) (now : Nat) : TelemetryData :=
  if telemetry.timestamp = none then { telemetry with timestamp := some now }
  else telemetry

/-- Sentinel.py lines 204-216: the state after appending the feature
vector to `features_window` (a plain Python list, so a bare append) and
the history entry to the bounded `telemetry_history` deque. -/
def appendSample (st : SentinelState) (telemetry : TelemetryData)
    (now : Nat) : SentinelState :=
  let features := extract_features telemetry
  let tel := telemetryAfter telemetry now
  { telemetry_history := dequeAppend 1000 st.telemetry_history
      { features := features, telemetry := tel, timestamp := tel.timestamp.getD now },
    anomaly_detector := st.anomaly_detector,
    features_window := st.features_window ++ [features] }

/-- Sentinel.py lines 218-220: the detector is rebuilt exactly when the
post-append window length is a multiple of 50. -/
def maybeRetrain (fit : List (List ℚ) → Except Unit Forest)
    (st : SentinelState) : SentinelState × Bool :=
  if st.features_window.length % 50 = 0 then update_anomaly_detector fit st
  else (st, false)

/-- Sentinel.py lines 222-254: the detection branch. Given the (possibly
just retrained) detector, the explanation-call outcome, the feature
vector and the post-append window length, produces the response together
with a ghost flag recording whether the detection branch was entered.
`decision_function`, then `predict`, may each raise; any exception is
caught and the handler falls through to the plain OK response. -/
def detection_response (detOpt : Option Forest) (primary : PrimaryOutcome)
    (features : List ℚ) (windowLen : Nat) : AnalysisResponse × Bool :=
  match detOpt with
  | none => (okResponse, false)
  | some det =>
    if 10 ≤ windowLen then
      match det.decision features with
      | Except.error _ => (okResponse, true)
      | Except.ok score =>
        match det.predictOn features with
        | Except.error _ => (okResponse, true)
        | Except.ok p =>
          if p = -1 then
            ({ status := "THREAT_DETECTED", action := some "freeze",
               reason := some (explain_async primary features).1,
               prediction_score := some (-score),
               confidence := some (min (|score| * 10) 1) }, true)
          else (okResponse, true)
    else (okResponse, false)

/-- Embeds the request handler `analyze_flow` (sentinel.py lines 195-254).
`prometheusAvailable` is the module flag `PROMETHEUS_AVAILABLE`: the whole
handler body is indented under `if PROMETHEUS_AVAILABLE:` (lines 200-254),
so when it is false the function body does nothing and returns `None`.
`fit` is the training oracle, `primary` the outcome of the explanation
call, `now` the value `datetime.utcnow()` would produce. -/
def analyze_flow (prometheusAvailable : Bool)
    (fit : List (List ℚ) → Except Unit Forest) (primary : PrimaryOutcome)
    (st : SentinelState) (telemetry : TelemetryData) (now : Nat) : FlowOutcome :=
  if prometheusAvailable = false then
    { response := none, state := st, telemetryOut := telemetry,
      scored := false, rebuilt := false }
  else
    let st1 := appendSample st telemetry now
    let upd := maybeRetrain fit st1
    let r := detection_response upd.1.anomaly_detector primary
      (extract_features telemetry) st1.features_window.length
    { response := some r.1, state := upd.1,
      telemetryOut := telemetryAfter telemetry now,
      scored := r.2, rebuilt := upd.2 }

/-- Modelled from the spec: the confidence calibration formula of §4.3,
`min(|s − 0.5| × scaleFactor, 1.0)` with `scaleFactor` defaulting to 20,
stated for comparison with the formula the code computes. -/
def specConfidence (s : ℚ) : ℚ := min (|s - 1/2| * 20) 1

/-- A training oracle on which `fit` always raises. -/
def fitFail : List (List ℚ) → Except Unit Forest := fun _ => Except.error ()

/-- A fitted model that flags every sample as anomalous with raw
decision-function score -1/50. -/
def flagAllModel : FittedModel :=
  { decisionFunction := fun _ => Except.ok (-(1/50 : ℚ)),
    predict := fun _ => Except.ok (-1) }

/-- A training oracle whose `fit` always succeeds, producing `flagAllModel`. -/
def fitFlagAll : List (List ℚ) → Except Unit Forest :=
  fun _ => Except.ok (Forest.fitted flagAllModel)

/-- A nominal telemetry sample (no timestamp supplied). -/
def telNominal : TelemetryData :=
  { latency := 200, input_length := 1000, errors := 0, route := "/api/test" }

/-- The Scenario E sample: a negative latency. -/
def telNegative : TelemetryData :=
  { latency := -100, input_length := 512, errors := 0, route := "/api/test" }

/-- The detector that a (re)build attempt on window `w` publishes: the
fitted forest on success, the fresh unfitted estimator when `fit` raises.
The previous detector does not occur in this expression: a rebuild is
wholesale, never incremental. -/
def trainResult (fit : List (List ℚ) → Except Unit Forest)
    (w : List (List ℚ)) : Option Forest :=
  some (match fit w with
        | Except.ok f => f
        | Except.error _ => Forest.unfitted)

/-- Iterates the request handler: `n` successive requests with the same
telemetry, oracles and clock, starting from `st`. -/
def flowIter (fit : List (List ℚ) → Except Unit Forest)
    (primary : PrimaryOutcome) (tel : TelemetryData) (now : Nat) :
    Nat → SentinelState → SentinelState
  | 0, st => st
  | n + 1, st =>
    (analyze_flow true fit primary (flowIter fit primary tel now n st) tel now).state

/-- Reachability invariant of the module state: a detector is only ever
published by `update_anomaly_detector`, which requires at least 10 window
samples, and the window never shrinks; hence a present detector implies a
window of at least 10 samples. -/
def WindowInv (st : SentinelState) : Prop :=
  st.anomaly_detector ≠ none → 10 ≤ st.features_window.length

/-- Whether a forest object has been successfully fitted. -/
def Forest.isFitted : Forest → Bool
  | Forest.unfitted => false
  | Forest.fitted _ => true

/-- Whether the module state currently holds a successfully fitted
detector usable for scoring. -/
def detectorFitted (st : SentinelState) : Bool :=
  match st.anomaly_detector with
  | some f => f.isFitted
  | none => false

/-- A cold-start state after 49 appends: no detector yet, 49 window rows. -/
def st49 : SentinelState :=
  { telemetry_history := [], anomaly_detector := none,
    features_window := List.replicate 49 [0, 0, 0] }

/-- A state with a published fitted detector and a 10-row window. -/
def st10fitted : SentinelState :=
  { telemetry_history := [], anomaly_detector := some (Forest.fitted flagAllModel),
    features_window := List.replicate 10 [0, 0, 0] }

/-- A state with a published fitted detector and 49 window rows, so that
the next request triggers a rebuild. -/
def stPrev : SentinelState :=
  { telemetry_history := [], anomaly_detector := some (Forest.fitted flagAllModel),
    features_window := List.replicate 49 [0, 0, 0] }

/-- The concrete THREAT_DETECTED response produced by `flagAllModel` on a
sample whose features match no specific fallback rule. -/
def threatFlagResponse : AnalysisResponse :=
  { status := "THREAT_DETECTED", action := some "freeze",
    reason := some "Unusual combination of telemetry metrics detected",
    prediction_score := some (1/50), confidence := some (1/5) }

section HelperLemmas

lemma update_anomaly_detector_fst_window (fit : List (List ℚ) → Except Unit Forest)
    (st : SentinelState) :
    ((update_anomaly_detector fit st).1).features_window = st.features_window := by
  unfold update_anomaly_detector
  split
  · rfl
  · split <;> rfl

lemma update_anomaly_detector_fst_history (fit : List (List ℚ) → Except Unit Forest)
    (st : SentinelState) :
    ((update_anomaly_detector fit st).1).telemetry_history = st.telemetry_history := by
  unfold update_anomaly_detector
  split
  · rfl
  · split <;> rfl

lemma update_anomaly_detector_small (fit : List (List ℚ) → Except Unit Forest)
    (st : SentinelState) (h : st.features_window.length < 10) :
    update_anomaly_detector fit st = (st, false) := by
  unfold update_anomaly_detector
  exact if_pos h

lemma update_anomaly_detector_large (fit : List (List ℚ) → Except Unit Forest)
    (st : SentinelState) (h : 10 ≤ st.features_window.length) :
    update_anomaly_detector fit st =
      ({ st with anomaly_detector := trainResult fit st.features_window }, true) := by
  unfold update_anomaly_detector trainResult
  rw [if_neg (by omega)]
  rcases hf : fit st.features_window with e | f <;> simp only [hf]

lemma maybeRetrain_fst_window (fit : List (List ℚ) → Except Unit Forest)
    (st : SentinelState) :
    ((maybeRetrain fit st).1).features_window = st.features_window := by
  unfold maybeRetrain
  split
  · exact update_anomaly_detector_fst_window fit st
  · rfl

lemma maybeRetrain_fst_history (fit : List (List ℚ) → Except Unit Forest)
    (st : SentinelState) :
    ((maybeRetrain fit st).1).telemetry_history = st.telemetry_history := by
  unfold maybeRetrain
  split
  · exact update_anomaly_detector_fst_history fit st
  · rfl

lemma appendSample_window (st : SentinelState) (tel : TelemetryData) (now : Nat) :
    (appendSample st tel now).features_window
      = st.features_window ++ [extract_features tel] := rfl

lemma appendSample_detector (st : SentinelState) (tel : TelemetryData) (now : Nat) :
    (appendSample st tel now).anomaly_detector = st.anomaly_detector := by
  unfold appendSample
  rfl

lemma analyze_flow_false_eq (fit : List (List ℚ) → Except Unit Forest)
    (primary : PrimaryOutcome) (st : SentinelState) (tel : TelemetryData) (now : Nat) :
    analyze_flow false fit primary st tel now =
      { response := none, state := st, telemetryOut := tel,
        scored := false, rebuilt := false } := rfl

lemma analyze_flow_state (fit : List (List ℚ) → Except Unit Forest)
    (primary : PrimaryOutcome) (st : SentinelState) (tel : TelemetryData) (now : Nat) :
    (analyze_flow true fit primary st tel now).state
      = (maybeRetrain fit (appendSample st tel now)).1 := rfl

lemma analyze_flow_response (fit : List (List ℚ) → Except Unit Forest)
    (primary : PrimaryOutcome) (st : SentinelState) (tel : TelemetryData) (now : Nat) :
    (analyze_flow true fit primary st tel now).response
      = some (detection_response
          ((maybeRetrain fit (appendSample st tel now)).1).anomaly_detector primary
          (extract_features tel) (appendSample st tel now).features_window.length).1 := rfl

lemma analyze_flow_scored (fit : List (List ℚ) → Except Unit Forest)
    (primary : PrimaryOutcome) (st : SentinelState) (tel : TelemetryData) (now : Nat) :
    (analyze_flow true fit primary st tel now).scored
      = (detection_response
          ((maybeRetrain fit (appendSample st tel now)).1).anomaly_detector primary
          (extract_features tel) (appendSample st tel now).features_window.length).2 := rfl

lemma analyze_flow_rebuilt (fit : List (List ℚ) → Except Unit Forest)
    (primary : PrimaryOutcome) (st : SentinelState) (tel : TelemetryData) (now : Nat) :
    (analyze_flow true fit primary st tel now).rebuilt
      = (maybeRetrain fit (appendSample st tel now)).2 := rfl

lemma analyze_flow_telemetryOut (fit : List (List ℚ) → Except Unit Forest)
    (primary : PrimaryOutcome) (st : SentinelState) (tel : TelemetryData) (now : Nat) :
    (analyze_flow true fit primary st tel now).telemetryOut
      = telemetryAfter tel now := rfl

lemma analyze_flow_window (fit : List (List ℚ) → Except Unit Forest)
    (primary : PrimaryOutcome) (st : SentinelState) (tel : TelemetryData) (now : Nat) :
    (analyze_flow true fit primary st tel now).state.features_window
      = st.features_window ++ [extract_features tel] := by
  rw [analyze_flow_state, maybeRetrain_fst_window, appendSample_window]

lemma appendSample_window_length (st : SentinelState) (tel : TelemetryData) (now : Nat) :
    (appendSample st tel now).features_window.length
      = st.features_window.length + 1 := by
  rw [appendSample_window, List.length_append, List.length_singleton]

lemma flowIter_window_length (fit : List (List ℚ) → Except Unit Forest)
    (primary : PrimaryOutcome) (tel : TelemetryData) (now : Nat)
    (n : Nat) (st : SentinelState) :
    (flowIter fit primary tel now n st).features_window.length
      = st.features_window.length + n := by
  induction n with
  | zero => rfl
  | succ k ih =>
    show (analyze_flow true fit primary (flowIter fit primary tel now k st)
        tel now).state.features_window.length = _
    rw [analyze_flow_window, List.length_append, ih, List.length_singleton]
    omega

lemma maybeRetrain_spec (fit : List (List ℚ) → Except Unit Forest)
    (st : SentinelState) :
    ((maybeRetrain fit st).2 = true ↔
      (st.features_window.length % 50 = 0 ∧ 10 ≤ st.features_window.length)) ∧
    ((maybeRetrain fit st).2 = true →
      ((maybeRetrain fit st).1).anomaly_detector
        = trainResult fit st.features_window) := by
  unfold maybeRetrain
  by_cases hmod : st.features_window.length % 50 = 0
  · rw [if_pos hmod]
    by_cases hs : st.features_window.length < 10
    · rw [update_anomaly_detector_small fit st hs]
      exact ⟨⟨fun h => by simp at h, fun h => absurd h.2 (by omega)⟩,
        fun h => by simp at h⟩
    · rw [update_anomaly_detector_large fit st (by omega)]
      exact ⟨⟨fun _ => ⟨hmod, by omega⟩, fun _ => rfl⟩, fun _ => rfl⟩
  · rw [if_neg hmod]
    exact ⟨⟨fun h => by simp at h, fun h => absurd h.1 hmod⟩,
      fun h => by simp at h⟩

lemma maybeRetrain_detector_none (fit : List (List ℚ) → Except Unit Forest)
    (st : SentinelState) (hdet : st.anomaly_detector = none)
    (h : st.features_window.length % 50 ≠ 0 ∨ st.features_window.length < 10) :
    ((maybeRetrain fit st).1).anomaly_detector = none := by
  unfold maybeRetrain
  by_cases hmod : st.features_window.length % 50 = 0
  · rcases h with h | h
    · exact absurd hmod h
    · rw [if_pos hmod, update_anomaly_detector_small fit st h]
      exact hdet
  · rw [if_neg hmod]
    exact hdet

lemma fallbackReason_eq (l i e : ℚ) :
    fallbackReason [l, i, e] =
      (if 5000 < l then
        "Unusually high latency detected, possible resource exhaustion or DoS attempt"
      else if 5 < e then
        "High error rate suggests potential attack or system degradation"
      else if 10000 < i then
        "Excessive input size may indicate buffer overflow attempt"
      else
        "Unusual combination of telemetry metrics detected") := by
  unfold fallbackReason
  simp only [List.getD, List.get?, Option.getD, gt_iff_lt]

lemma detection_response_none (primary : PrimaryOutcome)
    (features : List ℚ) (windowLen : Nat) :
    detection_response none primary features windowLen = (okResponse, false) := rfl

lemma detection_response_small (det : Forest) (primary : PrimaryOutcome)
    (features : List ℚ) (windowLen : Nat) (h : windowLen < 10) :
    detection_response (some det) primary features windowLen = (okResponse, false) := by
  unfold detection_response
  exact if_neg (by omega)

lemma detection_response_cases (detOpt : Option Forest)
    (primary : PrimaryOutcome) (features : List ℚ) (windowLen : Nat) :
    (∃ b, detection_response detOpt primary features windowLen = (okResponse, b)) ∨
    (∃ det score p,
      detOpt = some det ∧ 10 ≤ windowLen ∧
      det.decision features = Except.ok score ∧
      det.predictOn features = Except.ok p ∧ p = -1 ∧
      detection_response detOpt primary features windowLen =
        ({ status := "THREAT_DETECTED", action := some "freeze",
           reason := some (explain_async primary features).1,
           prediction_score := some (-score),
           confidence := some (min (|score| * 10) 1) }, true)) := by
  rcases detOpt with _ | det
  · exact Or.inl ⟨false, rfl⟩
  · unfold detection_response
    dsimp only
    by_cases hw : 10 ≤ windowLen
    · rw [if_pos hw]
      rcases h1 : det.decision features with e | score
      · exact Or.inl ⟨true, rfl⟩
      · dsimp only
        rcases h2 : det.predictOn features with e | p
        · exact Or.inl ⟨true, rfl⟩
        · dsimp only
          by_cases hp : p = -1
          · rw [if_pos hp]
            exact Or.inr ⟨det, score, p, rfl, hw, h1, h2, hp, rfl⟩
          · rw [if_neg hp]
            exact Or.inl ⟨true, rfl⟩
    · rw [if_neg hw]
      exact Or.inl ⟨false, rfl⟩

end HelperLemmas

/-- C5: whenever the fallback rule chain produces the explanation (in
particular whenever the primary call fails), the rules are evaluated in
fixed priority with first match winning: latency > 5000 yields the
high-latency text; otherwise errors > 5 yields the error-rate text;
otherwise input_length > 10000 yields the input-size text; otherwise the
generic text. A sample with latency 6000 and errors 8 yields the latency
text, never the errors text. -/
theorem C5_fallback_rule_priority :
    ∀ l i e : ℚ,
      (explain_async PrimaryOutcome.exc [l, i, e]).1 = fallbackReason [l, i, e] ∧
      (5000 < l → fallbackReason [l, i, e] =
        "Unusually high latency detected, possible resource exhaustion or DoS attempt") ∧
      (l ≤ 5000 → 5 < e → fallbackReason [l, i, e] =
        "High error rate suggests potential attack or system degradation") ∧
      (l ≤ 5000 → e ≤ 5 → 10000 < i → fallbackReason [l, i, e] =
        "Excessive input size may indicate buffer overflow attempt") ∧
      (l ≤ 5000 → e ≤ 5 → i ≤ 10000 → fallbackReason [l, i, e] =
        "Unusual combination of telemetry metrics detected") ∧
      fallbackReason [6000, i, 8] =
        "Unusually high latency detected, possible resource exhaustion or DoS attempt" := by
  intro l i e
  refine ⟨rfl, ?_, ?_, ?_, ?_, ?_⟩
  · intro h1
    rw [fallbackReason_eq, if_pos h1]
  · intro h1 h2
    rw [fallbackReason_eq, if_neg (by linarith), if_pos h2]
  · intro h1 h2 h3
    rw [fallbackReason_eq, if_neg (by linarith), if_neg (by linarith), if_pos h3]
  · intro h1 h2 h3
    rw [fallbackReason_eq, if_neg (by linarith), if_neg (by linarith),
      if_neg (by linarith)]
  · rw [fallbackReason_eq, if_pos (by norm_num)]

/-- Witness for C5: the concrete sample latency 6000, errors 8 takes the
high-latency branch. -/
theorem C5_fallback_rule_priority_witness :
    (5000 : ℚ) < 6000 ∧ fallbackReason [6000, 0, 8] =
      "Unusually high latency detected, possible resource exhaustion or DoS attempt" :=
  ⟨by norm_num, (C5_fallback_rule_priority 6000 0 8).2.1 (by norm_num)⟩

/-- C10: the primary explanation text is used only when the external call
completes with HTTP status 200 and non-empty (stripped) message content;
a 200 response with empty content, any non-200 status, and any exception
or timeout all fall through to the deterministic fallback chain, with no
error raised (the function still returns a string). -/
theorem C10_primary_requires_200_and_content :
    ∀ (features : List ℚ) (content : String) (statusCode : Nat),
      (pythonStrip content ≠ "" →
        explain_async (PrimaryOutcome.completed 200 content) features
          = (pythonStrip content, true)) ∧
      (pythonStrip content = "" →
        explain_async (PrimaryOutcome.completed 200 content) features
          = (fallbackReason features, false)) ∧
      (statusCode ≠ 200 →
        explain_async (PrimaryOutcome.completed statusCode content) features
          = (fallbackReason features, false)) ∧
      explain_async PrimaryOutcome.exc features = (fallbackReason features, false) ∧
      (∀ outcome : PrimaryOutcome, (explain_async outcome features).2 = true →
        ∃ c, outcome = PrimaryOutcome.completed 200 c ∧ pythonStrip c ≠ "" ∧
          (explain_async outcome features).1 = pythonStrip c) := by
  intro features content statusCode
  refine ⟨?_, ?_, ?_, rfl, ?_⟩
  · intro h
    unfold explain_async
    dsimp only
    rw [if_pos rfl, if_pos h]
  · intro h
    unfold explain_async
    dsimp only
    rw [if_pos rfl, if_neg (by simp [h])]
  · intro h
    unfold explain_async
    dsimp only
    rw [if_neg h]
  · intro outcome h
    rcases outcome with _ | ⟨s, c⟩
    · exact absurd h (by simp [explain_async])
    · unfold explain_async at h ⊢
      dsimp only at h ⊢
      by_cases hs : s = 200
      · subst hs
        rw [if_pos rfl] at h ⊢
        by_cases hc : pythonStrip c ≠ ""
        · rw [if_pos hc] at h ⊢
          exact ⟨c, rfl, hc, rfl⟩
        · rw [if_neg hc] at h
          exact absurd h (by simp)
      · rw [if_neg hs] at h
        exact absurd h (by simp)

/-- Witness for C10: a completed 200 response with content "ok reason"
returns that content as the primary explanation. -/
theorem C10_primary_requires_200_and_content_witness :
    (pythonStrip "ok reason" ≠ "") ∧
    explain_async (PrimaryOutcome.completed 200 "ok reason") [0, 0, 0]
      = (pythonStrip "ok reason", true) :=
  ⟨by decide, (C10_primary_requires_200_and_content [0, 0, 0] "ok reason" 200).1
    (by decide)⟩

/-- C1: the claim states that every syntactically valid sample yields a
response with status OK or THREAT_DETECTED regardless of whether the
optional metrics library is present. The code violates this: the entire
handler body sits under `if PROMETHEUS_AVAILABLE:`, so without the
metrics library the handler mutates nothing and returns `None` (no
`AnalysisResponse` at all). Whenever a response *is* produced, its status
is indeed OK or THREAT_DETECTED. -/
theorem C1_handler_skipped_without_metrics :
    ((analyze_flow false fitFail PrimaryOutcome.exc initialState telNominal 0).response
        = none ∧
      (analyze_flow false fitFail PrimaryOutcome.exc initialState telNominal 0).state.features_window
        = initialState.features_window) ∧
    (∀ (pa : Bool) fit primary st (tel : TelemetryData) now
        (r : AnalysisResponse),
      (analyze_flow pa fit primary st tel now).response = some r →
      r.status = "OK" ∨ r.status = "THREAT_DETECTED") := by
  refine ⟨⟨rfl, rfl⟩, ?_⟩
  intro pa fit primary st tel now r h
  cases pa with
  | false =>
    rw [analyze_flow_false_eq] at h
    exact absurd h (by simp)
  | true =>
    rw [analyze_flow_response] at h
    injection h with h
    rcases detection_response_cases
        ((maybeRetrain fit (appendSample st tel now)).1).anomaly_detector primary
        (extract_features tel) (appendSample st tel now).features_window.length with
      ⟨b, hb⟩ | ⟨det, score, p, _, _, _, _, _, hb⟩
    · rw [hb] at h
      subst h
      exact Or.inl rfl
    · rw [hb] at h
      subst h
      exact Or.inr rfl

/-- Witness for C1's universally quantified part: the very first request
(no detector yet) yields the OK response. -/
theorem C1_handler_skipped_without_metrics_witness :
    (analyze_flow true fitFail PrimaryOutcome.exc initialState telNominal 0).response
      = some okResponse ∧
    (okResponse.status = "OK" ∨ okResponse.status = "THREAT_DETECTED") :=
  ⟨rfl, C1_handler_skipped_without_metrics.2 true fitFail PrimaryOutcome.exc
    initialState telNominal 0 okResponse rfl⟩

/-- C4 counterexample: the sample with latency -100 is not rejected — the
handler appends it to the training window and (here, with a published
detector flagging it) scores it, mutating shared state and returning a
THREAT_DETECTED verdict rather than a validation error. -/
theorem C4_negative_latency_not_rejected :
    (analyze_flow true fitFail PrimaryOutcome.exc st10fitted telNegative 0).state.features_window
      = List.replicate 10 [0, 0, 0] ++ [[-100, 512, 0]] ∧
    (analyze_flow true fitFail PrimaryOutcome.exc st10fitted telNegative 0).response
      = some threatFlagResponse := by
  constructor
  · rw [analyze_flow_window]
    rfl
  · have h : (analyze_flow true fitFail PrimaryOutcome.exc st10fitted telNegative 0).response
        = some { status := "THREAT_DETECTED", action := some "freeze",
                 reason := some "Unusual combination of telemetry metrics detected",
                 prediction_score := some (-(-(1/50 : ℚ))),
                 confidence := some (min (|(-(1/50 : ℚ))| * 10) 1) } := rfl
    rw [h]
    norm_num [threatFlagResponse, min_def, abs_of_nonneg]

/-- C4 (amended): samples with negative latency, input_length or errors
pass validation like any other type-correct sample: they are appended to
the training window and the handler produces a normal response for them;
only type-malformed input is rejected by the model layer. -/
theorem C4_negative_values_accepted :
    ∀ fit primary st (tel : TelemetryData) now,
      (tel.latency < 0 ∨ tel.input_length < 0 ∨ tel.errors < 0) →
      (analyze_flow true fit primary st tel now).state.features_window
        = st.features_window ++ [extract_features tel] ∧
      ∃ r, (analyze_flow true fit primary st tel now).response = some r := by
  intro fit primary st tel now _
  exact ⟨analyze_flow_window fit primary st tel now,
    ⟨_, analyze_flow_response fit primary st tel now⟩⟩

/-- Witness for C4 (amended): the latency -100 sample is appended. -/
theorem C4_negative_values_accepted_witness :
    (telNegative.latency < 0 ∨ telNegative.input_length < 0 ∨ telNegative.errors < 0) ∧
    (analyze_flow true fitFail PrimaryOutcome.exc initialState telNegative 0).state.features_window
      = initialState.features_window ++ [extract_features telNegative] :=
  ⟨Or.inl (by norm_num [telNegative]),
    (C4_negative_values_accepted fitFail PrimaryOutcome.exc initialState telNegative 0
      (Or.inl (by norm_num [telNegative]))).1⟩

/-- C9 counterexample: a sample submitted without a timestamp is mutated
by the handler — its timestamp field is set to the current time, so the
processed object differs from the submitted one. -/
theorem C9_sample_without_timestamp_mutated :
    (analyze_flow true fitFail PrimaryOutcome.exc initialState telNominal 5).telemetryOut
      ≠ telNominal ∧
    (analyze_flow true fitFail PrimaryOutcome.exc initialState telNominal 5).telemetryOut.timestamp
      = some 5 := by
  constructor
  · decide
  · rfl

/-- C9 (amended): processing leaves every field of the submitted sample
unchanged except the timestamp of a sample submitted without one, which
is set to the current time; a sample submitted with a timestamp is left
entirely unchanged. -/
theorem C9_sample_unchanged_except_missing_timestamp :
    ∀ (pa : Bool) fit primary st (tel : TelemetryData) now,
      (tel.timestamp ≠ none →
        (analyze_flow pa fit primary st tel now).telemetryOut = tel) ∧
      (analyze_flow true fit primary st tel now).telemetryOut
        = { tel with timestamp := some (tel.timestamp.getD now) } := by
  intro pa fit primary st tel now
  constructor
  · intro h
    cases pa with
    | false => rfl
    | true =>
      rw [analyze_flow_telemetryOut]
      unfold telemetryAfter
      rw [if_neg h]
  · rw [analyze_flow_telemetryOut]
    unfold telemetryAfter
    rcases htt : tel.timestamp with _ | t
    · rw [if_pos rfl]
      rfl
    · rw [if_neg (by simp [htt])]
      cases tel
      simp_all

/-- Witness for C9 (amended): a sample carrying timestamp 3 is returned
unchanged. -/
theorem C9_sample_unchanged_except_missing_timestamp_witness :
    ({ telNominal with timestamp := some 3 }.timestamp ≠ none) ∧
    (analyze_flow true fitFail PrimaryOutcome.exc initialState
        { telNominal with timestamp := some 3 } 0).telemetryOut
      = { telNominal with timestamp := some 3 } :=
  ⟨by decide,
    (C9_sample_unchanged_except_missing_timestamp true fitFail PrimaryOutcome.exc
      initialState { telNominal with timestamp := some 3 } 0).1 (by decide)⟩

/-- C2 counterexample: the training window is *not* bounded — after 1001
requests starting from the empty state it holds 1001 feature vectors,
exceeding the capacity 1000 with nothing evicted. -/
theorem C2_training_window_exceeds_capacity :
    (flowIter fitFail PrimaryOutcome.exc telNominal 0 1001 initialState).features_window.length
      = 1001 ∧ ¬((1001 : Nat) ≤ 1000) := by
  constructor
  · rw [flowIter_window_length]
    rfl
  · decide

/-- C2 (amended): the training window `features_window` is a plain
unbounded list — `n` requests grow it by exactly `n` entries with no
eviction — while the separate audit deque `telemetry_history` is the
bounded FIFO buffer of capacity 1000: appends keep its size at most 1000
and an append to a full deque evicts the oldest entry. -/
theorem C2_history_bounded_window_unbounded :
    (∀ fit primary (tel : TelemetryData) now n st,
      (flowIter fit primary tel now n st).features_window.length
        = st.features_window.length + n) ∧
    (∀ (q : List HistoryEntry) (x : HistoryEntry),
      q.length ≤ 1000 →
        (dequeAppend 1000 q x).length ≤ 1000 ∧
        (q.length = 1000 → dequeAppend 1000 q x = q.drop 1 ++ [x])) ∧
    (∀ fit primary st (tel : TelemetryData) now,
      (analyze_flow true fit primary st tel now).state.telemetry_history
        = dequeAppend 1000 st.telemetry_history
            { features := extract_features tel,
              telemetry := telemetryAfter tel now,
              timestamp := (telemetryAfter tel now).timestamp.getD now }) := by
  refine ⟨fun fit primary tel now n st =>
    flowIter_window_length fit primary tel now n st, ?_, ?_⟩
  · intro q x hq
    constructor
    · unfold dequeAppend
      rw [List.length_drop, List.length_append, List.length_singleton]
      omega
    · intro h1000
      unfold dequeAppend
      rw [h1000]
      rw [show (1000 + 1 - 1000 : Nat) = 1 by norm_num]
      rw [List.drop_append_of_le_length (by omega)]
  · intro fit primary st tel now
    rw [analyze_flow_state, maybeRetrain_fst_history]
    unfold appendSample
    dsimp only

/-- Witness for C2 (amended): appending to an empty deque stays bounded. -/
theorem C2_history_bounded_window_unbounded_witness :
    (([] : List HistoryEntry).length ≤ 1000) ∧
    (dequeAppend 1000 ([] : List HistoryEntry)
        { features := [0], telemetry := telNominal, timestamp := 0 }).length ≤ 1000 :=
  ⟨by decide,
    (C2_history_bounded_window_unbounded.2.1 []
      { features := [0], telemetry := telNominal, timestamp := 0 } (by decide)).1⟩

/-- C3: the claim says a failed rebuild retains the previous forest.
The code assigns a brand-new estimator to the global *before* fitting it
(sentinel.py lines 148-153), so when `fit` raises, the previously fitted
forest is lost and the global holds an unfitted estimator: starting from
a fitted detector and 49 window rows, the 50th append triggers a rebuild
whose failing `fit` leaves the detector unfitted, and the next request —
which the lost forest would have flagged — silently returns OK because
scoring the unfitted estimator raises and is caught. -/
theorem C3_failed_rebuild_loses_previous_forest :
    detectorFitted stPrev = true ∧
    (analyze_flow true fitFail PrimaryOutcome.exc stPrev telNominal 0).rebuilt = true ∧
    detectorFitted
      (analyze_flow true fitFail PrimaryOutcome.exc stPrev telNominal 0).state = false ∧
    (analyze_flow true fitFail PrimaryOutcome.exc
        (analyze_flow true fitFail PrimaryOutcome.exc stPrev telNominal 0).state
        telNominal 0).response = some okResponse ∧
    (detection_response (some (Forest.fitted flagAllModel)) PrimaryOutcome.exc
        (extract_features telNominal) 51).1.status = "THREAT_DETECTED" :=
  ⟨rfl, rfl, rfl, rfl, rfl⟩

/-- C7: a full rebuild from the current window is performed exactly on
those requests for which the post-append window length (the cumulative
append counter — the window never shrinks) is a multiple of 50 and is at
least 10; the rebuild trains a brand-new forest from the post-append
window, wholesale — the expression for the published detector does not
involve the previous forest. -/
theorem C7_retrain_cadence :
    ∀ fit primary st (tel : TelemetryData) now,
      ((analyze_flow true fit primary st tel now).rebuilt = true ↔
        ((st.features_window.length + 1) % 50 = 0 ∧
          10 ≤ st.features_window.length + 1)) ∧
      ((analyze_flow true fit primary st tel now).rebuilt = true →
        (analyze_flow true fit primary st tel now).state.anomaly_detector
          = trainResult fit (st.features_window ++ [extract_features tel])) := by
  intro fit primary st tel now
  have hlen := appendSample_window_length st tel now
  constructor
  · rw [analyze_flow_rebuilt, (maybeRetrain_spec fit (appendSample st tel now)).1, hlen]
  · intro h
    rw [analyze_flow_rebuilt] at h
    rw [analyze_flow_state, (maybeRetrain_spec fit (appendSample st tel now)).2 h,
      appendSample_window]

/-- Witness for C7: the 50th append (49 rows before) triggers a rebuild
publishing exactly the forest trained on the post-append window. -/
theorem C7_retrain_cadence_witness :
    (analyze_flow true fitFlagAll PrimaryOutcome.exc st49 telNominal 0).rebuilt = true ∧
    (analyze_flow true fitFlagAll PrimaryOutcome.exc st49 telNominal 0).state.anomaly_detector
      = trainResult fitFlagAll (st49.features_window ++ [extract_features telNominal]) :=
  ⟨rfl, (C7_retrain_cadence fitFlagAll PrimaryOutcome.exc st49 telNominal 0).2 rfl⟩

/-- C8 counterexample: on a THREAT_DETECTED response the code reports
confidence `min(|d| * 10, 1)` for raw decision-function score `d`: with
`d = -1/50` it reports 1/5, whereas the claimed formula
`min(|s - 0.5| * 20, 1)` gives 1 — both for `s = d` and for `s` read as
the returned (sign-flipped) `prediction_score`. -/
theorem C8_confidence_not_spec_formula :
    (analyze_flow true fitFail PrimaryOutcome.exc st10fitted telNominal 0).response
      = some threatFlagResponse ∧
    threatFlagResponse.confidence = some (1/5) ∧
    specConfidence (-(1/50)) = 1 ∧
    specConfidence (1/50) = 1 ∧
    ((1 : ℚ)/5 ≠ 1) := by
  refine ⟨?_, rfl, ?_, ?_, by norm_num⟩
  · have h : (analyze_flow true fitFail PrimaryOutcome.exc st10fitted telNominal 0).response
        = some { status := "THREAT_DETECTED", action := some "freeze",
                 reason := some "Unusual combination of telemetry metrics detected",
                 prediction_score := some (-(-(1/50 : ℚ))),
                 confidence := some (min (|(-(1/50 : ℚ))| * 10) 1) } := rfl
    rw [h]
    norm_num [threatFlagResponse, min_def, abs_of_nonneg]
  · unfold specConfidence
    rw [show (-(1/50 : ℚ) - 1/2) = -(13/25) by norm_num, abs_neg,
      abs_of_nonneg (by norm_num : (0 : ℚ) ≤ 13/25)]
    norm_num [min_def]
  · unfold specConfidence
    rw [show ((1/50 : ℚ) - 1/2) = -(12/25) by norm_num, abs_neg,
      abs_of_nonneg (by norm_num : (0 : ℚ) ≤ 12/25)]
    norm_num [min_def]

/-- C8 (amended): on every THREAT_DETECTED response the reported
confidence equals `min(|d| × 10, 1.0)` where `d` is the raw
decision-function score of the sample under the published detector (scale
factor 10, no 0.5 offset), the returned prediction_score is `-d`, and the
confidence always lies in [0, 1]. -/
theorem C8_confidence_is_scaled_decision_score :
    ∀ (pa : Bool) fit primary st (tel : TelemetryData) now (r : AnalysisResponse),
      (analyze_flow pa fit primary st tel now).response = some r →
      r.status = "THREAT_DETECTED" →
      ∃ det score,
        (analyze_flow pa fit primary st tel now).state.anomaly_detector = some det ∧
        det.decision (extract_features tel) = Except.ok score ∧
        r.prediction_score = some (-score) ∧
        r.confidence = some (min (|score| * 10) 1) ∧
        0 ≤ min (|score| * 10) 1 ∧ min (|score| * 10) 1 ≤ 1 := by
  intro pa fit primary st tel now r h hs
  cases pa with
  | false =>
    rw [analyze_flow_false_eq] at h
    exact absurd h (by simp)
  | true =>
    rw [analyze_flow_response] at h
    injection h with h
    rcases detection_response_cases
        ((maybeRetrain fit (appendSample st tel now)).1).anomaly_detector primary
        (extract_features tel) (appendSample st tel now).features_window.length with
      ⟨b, hb⟩ | ⟨det, score, p, hdet, hw, hdec, hpred, hp, hb⟩
    · rw [hb] at h
      subst h
      exact absurd hs (by simp [okResponse])
    · rw [hb] at h
      subst h
      refine ⟨det, score, ?_, hdec, rfl, rfl, ?_, min_le_right _ _⟩
      · rw [analyze_flow_state]
        exact hdet
      · exact le_min (by positivity) zero_le_one

/-- Witness for C8 (amended): the concrete flagged run. -/
theorem C8_confidence_is_scaled_decision_score_witness :
    ((analyze_flow true fitFail PrimaryOutcome.exc st10fitted telNominal 0).response
        = some { status := "THREAT_DETECTED", action := some "freeze",
                 reason := some "Unusual combination of telemetry metrics detected",
                 prediction_score := some (-(-(1/50 : ℚ))),
                 confidence := some (min (|(-(1/50 : ℚ))| * 10) 1) }) ∧
    (∃ det score,
      (analyze_flow true fitFail PrimaryOutcome.exc st10fitted telNominal 0).state.anomaly_detector
        = some det ∧
      det.decision (extract_features telNominal) = Except.ok score ∧
      ({ status := "THREAT_DETECTED", action := some "freeze",
         reason := some "Unusual combination of telemetry metrics detected",
         prediction_score := some (-(-(1/50 : ℚ))),
         confidence := some (min (|(-(1/50 : ℚ))| * 10) 1) :
           AnalysisResponse }).prediction_score = some (-score) ∧
      ({ status := "THREAT_DETECTED", action := some "freeze",
         reason := some "Unusual combination of telemetry metrics detected",
         prediction_score := some (-(-(1/50 : ℚ))),
         confidence := some (min (|(-(1/50 : ℚ))| * 10) 1) :
           AnalysisResponse }).confidence = some (min (|score| * 10) 1) ∧
      0 ≤ min (|score| * 10) 1 ∧ min (|score| * 10) 1 ≤ 1) :=
  ⟨rfl, C8_confidence_is_scaled_decision_score true fitFail PrimaryOutcome.exc
    st10fitted telNominal 0 _ rfl rfl⟩

/-- C6 counterexample: a request arriving while no trained forest exists
*is* scored when that same request triggers the rebuild: from a cold
state with 49 window rows and no detector, the 50th request builds the
forest and is immediately scored against it, returning THREAT_DETECTED
rather than OK. -/
theorem C6_rebuild_scores_same_request :
    st49.anomaly_detector = none ∧
    (analyze_flow true fitFlagAll PrimaryOutcome.exc st49 telNominal 0).scored = true ∧
    (analyze_flow true fitFlagAll PrimaryOutcome.exc st49 telNominal 0).response
      = some threatFlagResponse := by
  refine ⟨rfl, rfl, ?_⟩
  have h : (analyze_flow true fitFlagAll PrimaryOutcome.exc st49 telNominal 0).response
      = some { status := "THREAT_DETECTED", action := some "freeze",
               reason := some "Unusual combination of telemetry metrics detected",
               prediction_score := some (-(-(1/50 : ℚ))),
               confidence := some (min (|(-(1/50 : ℚ))| * 10) 1) } := rfl
  rw [h]
  norm_num [threatFlagResponse, min_def, abs_of_nonneg]

/-- C6 (amended): a request arriving with no published detector returns
OK unscored unless that same request triggers a rebuild (post-append
counter a multiple of 50 with at least 10 samples); and in any state
satisfying the reachability invariant (a published detector implies at
least 10 window samples), a request arriving while the window holds
fewer than 10 samples returns OK and is never scored. -/
theorem C6_fail_open_outside_rebuild :
    ∀ (pa : Bool) fit primary st (tel : TelemetryData) now,
      ((st.anomaly_detector = none ∧
          ((st.features_window.length + 1) % 50 ≠ 0 ∨
            st.features_window.length + 1 < 10)) ∨
        (WindowInv st ∧ st.features_window.length < 10)) →
      (analyze_flow pa fit primary st tel now).scored = false ∧
      (∀ r, (analyze_flow pa fit primary st tel now).response = some r →
        r = okResponse) := by
  intro pa fit primary st tel now h
  cases pa with
  | false =>
    refine ⟨rfl, fun r hr => absurd hr ?_⟩
    rw [analyze_flow_false_eq]
    simp
  | true =>
    have hkey : ((maybeRetrain fit (appendSample st tel now)).1).anomaly_detector
        = none := by
      rcases h with ⟨hdet, hcond⟩ | ⟨hinv, hsmall⟩
      · refine maybeRetrain_detector_none fit (appendSample st tel now) ?_ ?_
        · rw [appendSample_detector]
          exact hdet
        · rcases hcond with hc | hc
          · exact Or.inl (by rw [appendSample_window_length]; exact hc)
          · exact Or.inr (by rw [appendSample_window_length]; exact hc)
      · have hdet : st.anomaly_detector = none := by
          by_contra hne
          have := hinv hne
          omega
        refine maybeRetrain_detector_none fit (appendSample st tel now) ?_ ?_
        · rw [appendSample_detector]
          exact hdet
        · left
          rw [appendSample_window_length]
          omega
    constructor
    · rw [analyze_flow_scored, hkey, detection_response_none]
    · intro r hr
      rw [analyze_flow_response, hkey, detection_response_none] at hr
      injection hr with hr
      exact hr.symm

/-- Witness for C6 (amended): the first request from the empty state is
unscored. -/
theorem C6_fail_open_outside_rebuild_witness :
    (initialState.anomaly_detector = none ∧
      ((initialState.features_window.length + 1) % 50 ≠ 0 ∨
        initialState.features_window.length + 1 < 10)) ∧
    (analyze_flow true fitFail PrimaryOutcome.exc initialState telNominal 0).scored
      = false :=
  ⟨⟨rfl, by decide⟩,
    (C6_fail_open_outside_rebuild true fitFail PrimaryOutcome.exc initialState
      telNominal 0 (Or.inl ⟨rfl, by decide⟩)).1⟩
